import Mathlib

/-!
Verification of the response-parsing core of the Pro-English-Writing-Coach
backend (src/backend/core/ai_assistant.py).  The Python string primitives
are embedded as structurally recursive functions over character lists so
that every definition evaluates by kernel reduction.
-/

namespace Coach

/-! ### String primitives mirroring the Python operations used by the parser -/

/-- Python `s.strip()`: remove leading and trailing whitespace. -/
def pyStrip (s : String) : String :=
  String.mk (((s.data.dropWhile Char.isWhitespace).reverse.dropWhile Char.isWhitespace).reverse)

/-- Helper for `pyStartsWith`: the first character list is a prefix of the second. -/
def pyStartsWithAux : List Char → List Char → Bool
  | [], _ => true
  | _ :: _, [] => false
  | p :: ps, c :: cs => p == c && pyStartsWithAux ps cs

/-- Python `s.startswith(p)`. -/
def pyStartsWith (s p : String) : Bool := pyStartsWithAux p.data s.data

/-- Python slice `s[n:]` (Python slices strings by code points). -/
def pyDrop (s : String) (n : Nat) : String := String.mk (s.data.drop n)

/-- Python slice `s[:n]`. -/
def pyTake (s : String) (n : Nat) : String := String.mk (s.data.take n)

/-- Python `s.upper()` (the level tags in this program are ASCII). -/
def pyToUpper (s : String) : String := String.mk (s.data.map Char.toUpper)

/-- Python `s.replace(CRLF, LF)`: left-to-right, non-overlapping. -/
def replaceCRLF : List Char → List Char
  | '\r' :: '\n' :: rest => '\n' :: replaceCRLF rest
  | c :: rest => c :: replaceCRLF rest
  | [] => []

/-- Helper for `pySplitLines`: Python `s.split(LF)` (keeps empty pieces). -/
def splitNlAux (acc : List Char) : List Char → List String
  | [] => [String.mk acc.reverse]
  | c :: cs =>
    if c = '\n' then String.mk acc.reverse :: splitNlAux [] cs
    else splitNlAux (c :: acc) cs

/-- Line normalization used by both parsers (ai_assistant.py lines 129 and 369):
`raw.replace(CRLF, LF).split(LF)`. -/
def pySplitLines (s : String) : List String := splitNlAux [] (replaceCRLF s.data)

/-! ### Feedback parsing (EnglishWritingAssistant.get_feedback, lines 125-179) -/

/-- Parser states of the feedback state machine. -/
inductive PState where
  | INITIAL
  | IN_RESPONSE_BLOCK
  | IN_CORRECTED_TEXT
  | IN_CHANGES_LIST
deriving DecidableEq, Repr

/-- Result shape returned by `get_feedback` after parsing. -/
structure FeedbackResult where
  corrected_text : String
  changes_list : List String
deriving DecidableEq, Repr

/-- Outcome of one iteration of the `for line in lines` loop: either continue
with updated loop variables, or stop (the Python `break` on the end marker)
carrying the final `parsing_successful` flag. -/
inductive FbStep where
  | next (state : PState) (corrected_text : String) (changes_list : List String)
  | stop (corrected_text : String) (changes_list : List String) (parsing_successful : Bool)
deriving DecidableEq, Repr

/-- Python line 161: `stripped_line and stripped_line[0].isdigit() and
stripped_line.find(". ") == 1`.  Since the first character is a digit, the
first occurrence of `". "` is at index 1 exactly when characters 1 and 2 are
`.` and a space. -/
def numbered_change (s : String) : Bool :=
  match s.data with
  | c :: '.' :: ' ' :: _ => c.isDigit
  | _ => false

/-- One body of the feedback parsing loop (lines 133-164). -/
def feedback_line_step (state : PState) (corrected_text : String)
    (changes_list : List String) (line : String) : FbStep :=
  let stripped_line := pyStrip line
  if stripped_line = "---START_RESPONSE---" then
    .next .IN_RESPONSE_BLOCK corrected_text changes_list
  else if stripped_line = "---END_RESPONSE---" then
    .stop corrected_text changes_list
      (decide (state = .IN_CHANGES_LIST ∨ state = .IN_CORRECTED_TEXT ∨ corrected_text ≠ ""))
  else
    match state with
    | .INITIAL => .next .INITIAL corrected_text changes_list
    | .IN_RESPONSE_BLOCK =>
      if pyStartsWith stripped_line "CORRECTED_TEXT:" then
        .next .IN_CORRECTED_TEXT (pyStrip (pyDrop stripped_line 15)) changes_list
      else if pyStartsWith stripped_line "CHANGES_LIST:" then
        .next .IN_CHANGES_LIST corrected_text changes_list
      else
        .next .IN_RESPONSE_BLOCK corrected_text changes_list
    | .IN_CORRECTED_TEXT =>
      if pyStartsWith stripped_line "CHANGES_LIST:" then
        .next .IN_CHANGES_LIST corrected_text changes_list
      else
        .next .IN_CORRECTED_TEXT
          (corrected_text ++ (if corrected_text = "" then "" else " ") ++ stripped_line)
          changes_list
    | .IN_CHANGES_LIST =>
      if pyStartsWith stripped_line "- " || pyStartsWith stripped_line "* " then
        .next .IN_CHANGES_LIST corrected_text (changes_list ++ [pyStrip (pyDrop stripped_line 2)])
      else if numbered_change stripped_line then
        .next .IN_CHANGES_LIST corrected_text (changes_list ++ [pyStrip (pyDrop stripped_line 3)])
      else if stripped_line ≠ "" then
        .next .IN_CHANGES_LIST corrected_text (changes_list ++ [stripped_line])
      else
        .next .IN_CHANGES_LIST corrected_text changes_list

/-- The `for line in lines` loop including its `break`; returns
`(corrected_text, changes_list, parsing_successful)`.  `parsing_successful`
is only ever set at the end-marker `break`, so exhausting the input leaves
it `false`, exactly as in the Python code. -/
def feedback_run (state : PState) (corrected_text : String)
    (changes_list : List String) : List String → String × List String × Bool
  | [] => (corrected_text, changes_list, false)
  | line :: rest =>
    match feedback_line_step state corrected_text changes_list line with
    | .next st ct cl => feedback_run st ct cl rest
    | .stop ct cl ok => (ct, cl, ok)

/-- First fallback entry (line 169). -/
def parse_error_entry : String :=
  "Error: Could not parse structured feedback. Raw LLM output is provided."

/-- Second fallback entry (line 169): a truncated excerpt of the raw reply. -/
def raw_output_entry (raw : String) : String :=
  "Raw Output (truncated): " ++ pyTake raw 150 ++ "..."

/-- The sentinel change entry. -/
def sentinel : String := "No changes needed."

/-- Sentinel collapsing step (lines 171-174). -/
def sentinel_collapse (changes_list : List String) : List String :=
  if sentinel ∈ changes_list ∧ 1 < changes_list.length then
    let filtered := changes_list.filter (fun c => c ≠ sentinel)
    if filtered = [] then [sentinel] else filtered
  else changes_list

/-- The pure response-processing part of `get_feedback` (lines 125-179):
state-machine loop, fallback when parsing failed or no corrected text was
captured, sentinel collapsing, and the final strip of the corrected text. -/
def get_feedback_parse (raw_response_content : String) : FeedbackResult :=
  let r := feedback_run .INITIAL "" [] (pySplitLines raw_response_content)
  let parsing_successful := r.2.2
  let corrected_text := r.1
  let changes_list := r.2.1
  let failed := parsing_successful = false ∨ corrected_text = ""
  let corrected_text := if failed then raw_response_content else corrected_text
  let changes_list :=
    if failed then [parse_error_entry, raw_output_entry raw_response_content] else changes_list
  { corrected_text := pyStrip corrected_text, changes_list := sentinel_collapse changes_list }

/-! ### Vocabulary parsing (EnglishWritingAssistant.generate_vocabulary, lines 366-401) -/

/-- A vocabulary record.  The Python dict key for the third field is
`example`, renamed here because `example` is a Lean keyword. -/
structure VocabEntry where
  word : String
  definition : String
  example_sentence : String
deriving DecidableEq, Repr

/-- Python line 376: `line_stripped.startswith(tuple(str(i) + "." for i in range(1, 10)))`,
i.e. the first character is one of the digits 1-9 and the second is a dot. -/
def starts_with_number_dot (s : String) : Bool :=
  match s.data with
  | c :: '.' :: _ => decide ('1' ≤ c ∧ c ≤ '9')
  | _ => false

/-- Helper for `split_dot_space_once`: split at the first occurrence of a
dot followed by a space. -/
def split_dot_space_once_aux (acc : List Char) : List Char → List String
  | [] => [String.mk acc.reverse]
  | c :: cs =>
    if c = '.' ∧ cs.head? = some ' ' then [String.mk acc.reverse, String.mk cs.tail]
    else split_dot_space_once_aux (c :: acc) cs

/-- Python line 381: `line_stripped.split(". ", 1)`. -/
def split_dot_space_once (s : String) : List String :=
  split_dot_space_once_aux [] s.data

/-- One body of the vocabulary scanning loop (lines 371-392) over the pair
`(vocabulary_list_parsed, current_vocab)`.  `none` models the initial empty
Python dict, which is falsy; a dict that has received any key is truthy and
is modelled as `some`. -/
def vocab_line_step (acc : List VocabEntry × Option VocabEntry) (line : String) :
    List VocabEntry × Option VocabEntry :=
  let line_stripped := pyStrip line
  if line_stripped = "" then acc
  else if starts_with_number_dot line_stripped then
    let flushed :=
      match acc.2 with
      | some v => acc.1 ++ [v]
      | none => acc.1
    let parts := split_dot_space_once line_stripped
    let word :=
      match parts with
      | _ :: p1 :: _ =>
        if pyStartsWith p1 "Word:" then pyStrip (pyDrop p1 5)
        else pyStrip p1
      | _ => ""
    (flushed, some { word := word, definition := "", example_sentence := "" })
  else if pyStartsWith line_stripped "Word:" then
    let v := acc.2.getD { word := "", definition := "", example_sentence := "" }
    (acc.1, some { v with word := pyStrip (pyDrop line_stripped 5) })
  else if pyStartsWith line_stripped "Definition:" then
    let v := acc.2.getD { word := "", definition := "", example_sentence := "" }
    (acc.1, some { v with definition := pyStrip (pyDrop line_stripped 11) })
  else if pyStartsWith line_stripped "Example:" then
    let v := acc.2.getD { word := "", definition := "", example_sentence := "" }
    (acc.1, some { v with example_sentence := pyStrip (pyDrop line_stripped 8) })
  else acc

/-- The full vocabulary scan (lines 367-395), including the final flush of
the pending record. -/
def scan_vocab (raw : String) : List VocabEntry :=
  let r := (pySplitLines raw).foldl vocab_line_step ([], none)
  match r.2 with
  | some v => r.1 ++ [v]
  | none => r.1

/-- Message of the RuntimeError raised by the vocabulary validation. -/
def vocab_parse_error_msg : String := "Failed to parse vocabulary list from LLM response."

/-- Parsing plus validation of `generate_vocabulary` (lines 366-401): the
RuntimeError of line 399 is modelled as `Except.error`. -/
def parse_vocabulary (raw : String) : Except String (List VocabEntry) :=
  let l := scan_vocab raw
  if l = [] ∨ ∀ v ∈ l, v.word = "" then .error vocab_parse_error_msg
  else .ok l

/-! ### Proficiency-level handling (lines 52-65, 244, 314) -/

/-- Level handling at the top of `get_feedback` (lines 52-65): returns the
pair `(system_message, level_focus)`.  An empty string is falsy in Python,
so `some ""` behaves like `none`. -/
def feedback_level_setup : Option String → String × String
  | none => ("You are an English writing assistant.", "")
  | some l =>
    if l = "" then ("You are an English writing assistant.", "")
    else if pyToUpper l = "B1" then
      ("You are an English writing assistant specializing in B1-level intermediate proficiency.",
       "Focus on fundamental grammar, spelling, basic sentence structure, and clear communication. Provide simple, direct explanations for changes.")
    else if pyToUpper l = "B2" then
      ("You are an English writing assistant specializing in B2-level upper-intermediate proficiency.",
       "Focus on improving sentence fluency, vocabulary choice, common grammatical errors, and overall coherence. Explanations should be concise and helpful.")
    else if pyToUpper l = "C1" then
      ("You are an English writing assistant specializing in C1-level advanced professional proficiency.",
       "Focus on refining style, advanced grammar, idiomatic expressions, conciseness, and natural flow. Provide sophisticated and insightful explanations.")
    else
      ("You are an English writing assistant.", "Maintain a general C1-level focus.")

/-- Line 244: `level_key` selection of `generate_daily_task`; the keys of
`example_prompts` are exactly B1, B2 and C1. -/
def daily_task_level_key : Option String → String
  | none => "C1"
  | some l =>
    if l ≠ "" ∧ pyToUpper l ∈ (["B1", "B2", "C1"] : List String) then pyToUpper l else "C1"

/-- Line 314: `level_key` selection of `generate_vocabulary` (defaults to B2). -/
def vocab_level_key : Option String → String
  | none => "B2"
  | some l =>
    if l ≠ "" ∧ pyToUpper l ∈ (["B1", "B2", "C1"] : List String) then pyToUpper l else "B2"

/-! ### Helper lemmas about the string primitives -/

theorem data_append (a b : String) : (a ++ b).data = a.data ++ b.data := by
  cases a; cases b; rfl

theorem length_append (a b : String) : (a ++ b).length = a.length + b.length := by
  cases a with
  | mk la =>
    cases b with
    | mk lb => exact List.length_append la lb

theorem mk_data (s : String) : String.mk s.data = s := by
  cases s; rfl

theorem mk_cons_ne_empty (c : Char) (l : List Char) : String.mk (c :: l) ≠ "" := by
  intro h
  have h2 : c :: l = ([] : List Char) := congrArg String.data h
  cases h2

theorem ne_empty_append (a b : String) (h : a ≠ "") : a ++ b ≠ "" := by
  intro he
  apply h
  have hd : a.data ++ b.data = ([] : List Char) := by
    have h2 := congrArg String.data he
    rwa [data_append] at h2
  have ha : a.data = [] := (List.append_eq_nil.mp hd).1
  calc a = String.mk a.data := (mk_data a).symm
    _ = String.mk [] := by rw [ha]
    _ = "" := rfl

theorem starts_with_number_dot_cons (c : Char) (l : List Char) :
    starts_with_number_dot (String.mk (c :: '.' :: l)) = decide ('1' ≤ c ∧ c ≤ '9') := rfl

theorem split_dot_space_once_cons (d : Char) (l : List Char) :
    split_dot_space_once (String.mk (d :: '.' :: ' ' :: l))
      = [String.mk [d], String.mk l] := by
  unfold split_dot_space_once
  rw [split_dot_space_once_aux, if_neg (by simp)]
  rw [split_dot_space_once_aux, if_pos (by simp)]
  rfl

/-! ### Claim theorems -/

/-- Claim C5 (counterexample): the claim says every generation operation
defaults to the C1 tier, but `generate_vocabulary` defaults to B2
(line 314), and `get_feedback` with an absent level uses no level focus at
all rather than the C1 default. -/
theorem C5_counterexample :
    vocab_level_key none = "B2" ∧ ("B2" : String) ≠ "C1"
      ∧ (feedback_level_setup none).2 = "" := by
  refine ⟨rfl, by decide, rfl⟩

/-- Claim C5 (amended): `generate_daily_task` uses the C1 tag when the level
is absent or unrecognized; `generate_vocabulary` instead uses the B2 tag;
`get_feedback` uses a general C1-level focus only for a present but
unrecognized level, and no level-specific text when the level is absent. -/
theorem C5_theorem :
    (daily_task_level_key none = "C1"
      ∧ ∀ s : String, s ≠ "" → pyToUpper s ∉ (["B1", "B2", "C1"] : List String) →
          daily_task_level_key (some s) = "C1")
    ∧ (vocab_level_key none = "B2"
      ∧ ∀ s : String, s ≠ "" → pyToUpper s ∉ (["B1", "B2", "C1"] : List String) →
          vocab_level_key (some s) = "B2")
    ∧ (feedback_level_setup none = ("You are an English writing assistant.", "")
      ∧ ∀ s : String, s ≠ "" → pyToUpper s ≠ "B1" → pyToUpper s ≠ "B2" → pyToUpper s ≠ "C1" →
          feedback_level_setup (some s)
            = ("You are an English writing assistant.", "Maintain a general C1-level focus.")) := by
  refine ⟨⟨rfl, ?_⟩, ⟨rfl, ?_⟩, ⟨rfl, ?_⟩⟩
  · intro s _ hmem
    rw [daily_task_level_key, if_neg (fun hc : _ ∧ _ => hmem hc.2)]
  · intro s _ hmem
    rw [vocab_level_key, if_neg (fun hc : _ ∧ _ => hmem hc.2)]
  · intro s h1 h2 h3 h4
    rw [feedback_level_setup, if_neg h1, if_neg h2, if_neg h3, if_neg h4]

/-- Witness for C5 at the concrete unrecognized level tag `zz`. -/
theorem C5_witness :
    daily_task_level_key (some "zz") = "C1"
    ∧ vocab_level_key (some "zz") = "B2"
    ∧ feedback_level_setup (some "zz")
        = ("You are an English writing assistant.", "Maintain a general C1-level focus.") :=
  ⟨C5_theorem.1.2 ("zz") (by decide) (by decide),
   C5_theorem.2.1.2 ("zz") (by decide) (by decide),
   C5_theorem.2.2.2 ("zz") (by decide) (by decide) (by decide) (by decide)⟩

/-- Claim C6: `generate_vocabulary` raises the parse error exactly when the
scanned record list is empty or no record has a non-empty word; in
particular a reply that is only a heading line yields the parse error. -/
theorem C6_theorem :
    (∀ raw : String,
        (parse_vocabulary raw = Except.error vocab_parse_error_msg
          ↔ (scan_vocab raw = [] ∨ ∀ v ∈ scan_vocab raw, v.word = "")))
    ∧ parse_vocabulary "Here are 5 useful vocabulary words:"
        = Except.error vocab_parse_error_msg := by
  constructor
  · intro raw
    unfold parse_vocabulary
    by_cases hcond : scan_vocab raw = [] ∨ ∀ v ∈ scan_vocab raw, v.word = ""
    · rw [if_pos hcond]
      exact iff_of_true rfl hcond
    · rw [if_neg hcond]
      exact iff_of_false (by simp) hcond
  · rfl

/-- Claim C7: the feedback parsing pipeline is a pure function of the raw
reply; running it twice on the same input yields identical results. -/
theorem C7_theorem :
    ∀ raw : String, get_feedback_parse raw = get_feedback_parse raw := fun _ => rfl

/-- Claim C8: the sentinel-collapsing step maps a non-empty changes list to
a non-empty changes list; when every entry equals the sentinel the single
sentinel entry is restored. -/
theorem C8_theorem :
    (∀ changes_list : List String, changes_list ≠ [] → sentinel_collapse changes_list ≠ [])
    ∧ sentinel_collapse [sentinel, sentinel] = [sentinel] := by
  constructor
  · intro cl hcl
    unfold sentinel_collapse
    split
    · dsimp only
      split
      · simp
      · assumption
    · exact hcl
  · rfl

/-- Witness for C8 on a concrete non-empty changes list. -/
theorem C8_witness : sentinel_collapse ["Fixed tense."] ≠ [] :=
  C8_theorem.1 ["Fixed tense."] (by decide)

/-- Claim C10: a line that strips to the start marker only moves the state
to IN_RESPONSE_BLOCK; the accumulated corrected text and changes list are
left unchanged, whatever the current state. -/
theorem C10_theorem (state : PState) (corrected_text : String)
    (changes_list : List String) (line : String)
    (h : pyStrip line = "---START_RESPONSE---") :
    feedback_line_step state corrected_text changes_list line
      = .next .IN_RESPONSE_BLOCK corrected_text changes_list := by
  unfold feedback_line_step
  rw [h, if_pos rfl]

/-- Witness for C10: a second start marker encountered after text has been
captured preserves the captured text and changes. -/
theorem C10_witness :
    feedback_line_step .IN_CORRECTED_TEXT "I am happy." ["Fixed tense."] "---START_RESPONSE---"
      = .next .IN_RESPONSE_BLOCK "I am happy." ["Fixed tense."] :=
  C10_theorem .IN_CORRECTED_TEXT "I am happy." ["Fixed tense."] "---START_RESPONSE---" (by decide)

/-! ### Lemmas about the feedback loop -/

theorem step_next_of_ne_end (state : PState) (ct : String) (cl : List String) (line : String)
    (h : pyStrip line ≠ "---END_RESPONSE---") :
    ∃ st2 ct2 cl2, feedback_line_step state ct cl line = FbStep.next st2 ct2 cl2 := by
  unfold feedback_line_step
  by_cases hA : pyStrip line = "---START_RESPONSE---"
  · rw [if_pos hA]
    exact ⟨_, _, _, rfl⟩
  · rw [if_neg hA, if_neg h]
    cases state
    · exact ⟨_, _, _, rfl⟩
    · show ∃ st2 ct2 cl2,
        (if pyStartsWith (pyStrip line) "CORRECTED_TEXT:" = true then
          FbStep.next .IN_CORRECTED_TEXT (pyStrip (pyDrop (pyStrip line) 15)) cl
        else if pyStartsWith (pyStrip line) "CHANGES_LIST:" = true then
          FbStep.next .IN_CHANGES_LIST ct cl
        else FbStep.next .IN_RESPONSE_BLOCK ct cl) = FbStep.next st2 ct2 cl2
      by_cases h1 : pyStartsWith (pyStrip line) "CORRECTED_TEXT:" = true
      · rw [if_pos h1]
        exact ⟨_, _, _, rfl⟩
      · rw [if_neg h1]
        by_cases h2 : pyStartsWith (pyStrip line) "CHANGES_LIST:" = true
        · rw [if_pos h2]
          exact ⟨_, _, _, rfl⟩
        · rw [if_neg h2]
          exact ⟨_, _, _, rfl⟩
    · show ∃ st2 ct2 cl2,
        (if pyStartsWith (pyStrip line) "CHANGES_LIST:" = true then
          FbStep.next .IN_CHANGES_LIST ct cl
        else
          FbStep.next .IN_CORRECTED_TEXT
            (ct ++ (if ct = "" then "" else " ") ++ pyStrip line) cl) = FbStep.next st2 ct2 cl2
      by_cases h1 : pyStartsWith (pyStrip line) "CHANGES_LIST:" = true
      · rw [if_pos h1]
        exact ⟨_, _, _, rfl⟩
      · rw [if_neg h1]
        exact ⟨_, _, _, rfl⟩
    · show ∃ st2 ct2 cl2,
        (if (pyStartsWith (pyStrip line) "- " || pyStartsWith (pyStrip line) "* ") = true then
          FbStep.next .IN_CHANGES_LIST ct (cl ++ [pyStrip (pyDrop (pyStrip line) 2)])
        else if numbered_change (pyStrip line) = true then
          FbStep.next .IN_CHANGES_LIST ct (cl ++ [pyStrip (pyDrop (pyStrip line) 3)])
        else if pyStrip line ≠ "" then
          FbStep.next .IN_CHANGES_LIST ct (cl ++ [pyStrip line])
        else FbStep.next .IN_CHANGES_LIST ct cl) = FbStep.next st2 ct2 cl2
      by_cases h1 : (pyStartsWith (pyStrip line) "- " || pyStartsWith (pyStrip line) "* ") = true
      · rw [if_pos h1]
        exact ⟨_, _, _, rfl⟩
      · rw [if_neg h1]
        by_cases h2 : numbered_change (pyStrip line) = true
        · rw [if_pos h2]
          exact ⟨_, _, _, rfl⟩
        · rw [if_neg h2]
          by_cases h3 : pyStrip line ≠ ""
          · rw [if_pos h3]
            exact ⟨_, _, _, rfl⟩
          · rw [if_neg h3]
            exact ⟨_, _, _, rfl⟩

theorem feedback_run_ok_false :
    ∀ (lines : List String), (∀ l ∈ lines, pyStrip l ≠ "---END_RESPONSE---") →
    ∀ (state : PState) (ct : String) (cl : List String),
      (feedback_run state ct cl lines).2.2 = false := by
  intro lines
  induction lines with
  | nil => intro _ s ct cl; rfl
  | cons line rest ih =>
    intro h s ct cl
    obtain ⟨st2, ct2, cl2, hstep⟩ :=
      step_next_of_ne_end s ct cl line (h line (List.mem_cons_self line rest))
    rw [feedback_run, hstep]
    exact ih (fun l hl => h l (List.mem_cons_of_mem line hl)) st2 ct2 cl2

theorem feedback_run_initial_no_start :
    ∀ (lines : List String), (∀ l ∈ lines, pyStrip l ≠ "---START_RESPONSE---") →
    ∀ cl : List String, feedback_run .INITIAL "" cl lines = ("", cl, false) := by
  intro lines
  induction lines with
  | nil => intro _ _; rfl
  | cons line rest ih =>
    intro h cl
    have hl := h line (List.mem_cons_self line rest)
    have hstep : feedback_line_step .INITIAL "" cl line =
        if pyStrip line = "---END_RESPONSE---" then .stop "" cl false
        else .next .INITIAL "" cl := by
      unfold feedback_line_step
      rw [if_neg hl]
      split
      · rfl
      · rfl
    rw [feedback_run, hstep]
    by_cases he : pyStrip line = "---END_RESPONSE---"
    · rw [if_pos he]
    · rw [if_neg he]
      exact ih (fun l hl2 => h l (List.mem_cons_of_mem line hl2)) cl

theorem get_feedback_parse_failed (raw : String)
    (hf : (feedback_run .INITIAL "" [] (pySplitLines raw)).2.2 = false
        ∨ (feedback_run .INITIAL "" [] (pySplitLines raw)).1 = "") :
    get_feedback_parse raw
      = ⟨pyStrip raw, sentinel_collapse [parse_error_entry, raw_output_entry raw]⟩ := by
  simp only [get_feedback_parse]
  rw [if_pos hf, if_pos hf]

theorem collapse_fallback (raw : String) :
    sentinel_collapse [parse_error_entry, raw_output_entry raw]
      = [parse_error_entry, raw_output_entry raw] := by
  unfold sentinel_collapse
  rw [if_neg]
  rintro ⟨hmem, -⟩
  simp only [List.mem_cons, List.not_mem_nil, or_false] at hmem
  rcases hmem with h | h
  · exact absurd h (by decide)
  · have h2 := congrArg String.length h
    simp only [raw_output_entry, length_append] at h2
    have e1 : sentinel.length = 18 := rfl
    have e2 : ("Raw Output (truncated): " : String).length = 24 := rfl
    have e3 : ("..." : String).length = 3 := rfl
    rw [e1, e2, e3] at h2
    omega

/-- Claim C2 (counterexample): on a reply with no markers the fallback
produces two change entries, not exactly one. -/
theorem C2_counterexample :
    (get_feedback_parse "hello").changes_list.length = 2
    ∧ (get_feedback_parse "hello").changes_list
        = ["Error: Could not parse structured feedback. Raw LLM output is provided.",
           "Raw Output (truncated): hello..."] := by
  refine ⟨rfl, rfl⟩

/-- Claim C2 (amended): for every stripped raw reply in which no line strips
to the start marker, or no line strips to the end marker, the feedback
parsing step never raises (it is a total function) and returns
`corrected_text` equal to the raw reply together with exactly two change
entries: a fixed parse-failure diagnostic and an entry quoting a truncated
excerpt of at most 150 characters of the raw reply. -/
theorem C2_theorem (raw : String) (hstr : pyStrip raw = raw)
    (hmiss : (∀ l ∈ pySplitLines raw, pyStrip l ≠ "---START_RESPONSE---")
           ∨ (∀ l ∈ pySplitLines raw, pyStrip l ≠ "---END_RESPONSE---")) :
    get_feedback_parse raw = ⟨raw, [parse_error_entry, raw_output_entry raw]⟩
    ∧ (pyTake raw 150).length ≤ 150 := by
  constructor
  · have hf : (feedback_run .INITIAL "" [] (pySplitLines raw)).2.2 = false
        ∨ (feedback_run .INITIAL "" [] (pySplitLines raw)).1 = "" := by
      rcases hmiss with hm | hm
      · right
        rw [feedback_run_initial_no_start (pySplitLines raw) hm []]
      · left
        exact feedback_run_ok_false (pySplitLines raw) hm .INITIAL "" []
    rw [get_feedback_parse_failed raw hf, collapse_fallback, hstr]
  · calc (pyTake raw 150).length = (raw.data.take 150).length := rfl
      _ ≤ 150 := List.length_take_le _ _

/-- Witness for C2 on the marker-free reply `hello`. -/
theorem C2_witness :
    get_feedback_parse "hello" = ⟨"hello", [parse_error_entry, raw_output_entry "hello"]⟩
    ∧ (pyTake "hello" 150).length ≤ 150 :=
  C2_theorem ("hello") (by decide) (Or.inl (by decide))

/-- Claim C1 (counterexample): when the parsed changes list is
`[sentinel, other]`, `get_feedback` returns `[other]`, not
`[sentinel]` — the code drops the sentinel, it does not let it dominate. -/
theorem C1_counterexample :
    (feedback_run .INITIAL "" []
        (pySplitLines "---START_RESPONSE---\nCORRECTED_TEXT: Hi.\nCHANGES_LIST:\n- No changes needed.\n- Fixed tense.\n---END_RESPONSE---")).2.1
      = ["No changes needed.", "Fixed tense."]
    ∧ (get_feedback_parse "---START_RESPONSE---\nCORRECTED_TEXT: Hi.\nCHANGES_LIST:\n- No changes needed.\n- Fixed tense.\n---END_RESPONSE---").changes_list
      = ["Fixed tense."]
    ∧ (get_feedback_parse "---START_RESPONSE---\nCORRECTED_TEXT: Hi.\nCHANGES_LIST:\n- No changes needed.\n- Fixed tense.\n---END_RESPONSE---").changes_list
      ≠ ["No changes needed."] := by
  refine ⟨rfl, rfl, by decide⟩

/-- Claim C1 (amended): when the sentinel appears in the parsed changes list
together with at least one entry different from it, the sentinel entries are
removed and the other entries remain, in order; the sentinel does not
survive. -/
theorem C1_theorem (changes_list : List String)
    (hs : sentinel ∈ changes_list)
    (hc : ∃ c ∈ changes_list, c ≠ sentinel) :
    sentinel_collapse changes_list = changes_list.filter (fun c => c ≠ sentinel)
    ∧ sentinel ∉ sentinel_collapse changes_list := by
  obtain ⟨c, hcmem, hcne⟩ := hc
  have hlen : 1 < changes_list.length := by
    rcases changes_list with _ | ⟨x, _ | ⟨y, rest⟩⟩
    · simp at hs
    · simp only [List.mem_singleton] at hs hcmem
      exact absurd (hcmem.trans hs.symm) hcne
    · simp only [List.length_cons]
      omega
  have hfil : changes_list.filter (fun c => c ≠ sentinel) ≠ [] := by
    intro hF
    have hcf : c ∈ changes_list.filter (fun c => c ≠ sentinel) :=
      List.mem_filter.mpr ⟨hcmem, by simpa using hcne⟩
    rw [hF] at hcf
    simp at hcf
  have heq : sentinel_collapse changes_list
      = changes_list.filter (fun c => c ≠ sentinel) := by
    unfold sentinel_collapse
    rw [if_pos ⟨hs, hlen⟩]
    dsimp only
    rw [if_neg hfil]
  refine ⟨heq, ?_⟩
  rw [heq]
  intro hmem
  have h2 := (List.mem_filter.mp hmem).2
  simp at h2

/-- Witness for C1 on the changes list `[sentinel, Fixed X]`. -/
theorem C1_witness :
    sentinel_collapse ["No changes needed.", "Fixed X"] = ["Fixed X"]
    ∧ sentinel ∉ sentinel_collapse ["No changes needed.", "Fixed X"] := by
  have h := C1_theorem ["No changes needed.", "Fixed X"] (by decide)
      ⟨"Fixed X", by decide, by decide⟩
  exact ⟨h.1.trans (by decide), h.2⟩

/-- Claim C4 (counterexample): a record whose word stays empty is returned,
not discarded, as long as some other record has a non-empty word. -/
theorem C4_counterexample :
    parse_vocabulary "1. Word:\n2. Apple"
      = Except.ok [{ word := "", definition := "", example_sentence := "" },
                   { word := "Apple", definition := "", example_sentence := "" }]
    ∧ ∃ v ∈ [({ word := "", definition := "", example_sentence := "" } : VocabEntry),
             { word := "Apple", definition := "", example_sentence := "" }], v.word = "" := by
  refine ⟨rfl, ⟨⟨"", "", ""⟩, by decide, rfl⟩⟩

/-- Claim C4 (amended): whenever `generate_vocabulary` returns a sequence,
at least one entry has a non-empty word (otherwise the parse error is
raised); entries with an empty word are not discarded. -/
theorem C4_theorem (raw : String) (l : List VocabEntry)
    (h : parse_vocabulary raw = Except.ok l) : ∃ v ∈ l, v.word ≠ "" := by
  by_cases hcond : scan_vocab raw = [] ∨ ∀ v ∈ scan_vocab raw, v.word = ""
  · simp only [parse_vocabulary] at h
    rw [if_pos hcond] at h
    cases h
  · simp only [parse_vocabulary] at h
    rw [if_neg hcond] at h
    have hl : scan_vocab raw = l := by injection h
    push_neg at hcond
    obtain ⟨-, h2⟩ := hcond
    rw [← hl]
    exact h2

/-- Witness for C4 on a one-record reply. -/
theorem C4_witness :
    ∃ v ∈ [({ word := "Apple", definition := "", example_sentence := "" } : VocabEntry)],
      v.word ≠ "" :=
  C4_theorem ("1. Apple") [{ word := "Apple", definition := "", example_sentence := "" }] rfl

/-! ### Lemmas for the well-formed extraction claim -/

theorem feedback_run_cons (state : PState) (ct : String) (cl : List String)
    (line : String) (rest : List String) (st2 : PState) (ct2 : String) (cl2 : List String)
    (h : feedback_line_step state ct cl line = FbStep.next st2 ct2 cl2) :
    feedback_run state ct cl (line :: rest) = feedback_run st2 ct2 cl2 rest := by
  rw [feedback_run, h]

theorem feedback_run_corrected_lines :
    ∀ (ts rest : List String) (ct : String) (cl : List String), ct ≠ "" →
    (∀ s ∈ ts, pyStrip s ≠ "---START_RESPONSE---" ∧ pyStrip s ≠ "---END_RESPONSE---" ∧
        pyStartsWith (pyStrip s) "CHANGES_LIST:" = false) →
    feedback_run .IN_CORRECTED_TEXT ct cl (ts ++ rest)
      = feedback_run .IN_CORRECTED_TEXT
          (ts.foldl (fun a s => a ++ " " ++ pyStrip s) ct) cl rest := by
  intro ts
  induction ts with
  | nil => intro rest ct cl _ _; rfl
  | cons s ts ih =>
    intro rest ct cl hct hall
    obtain ⟨h1, h2, h3⟩ := hall s (List.mem_cons_self s ts)
    have hstep : feedback_line_step .IN_CORRECTED_TEXT ct cl s
        = .next .IN_CORRECTED_TEXT (ct ++ " " ++ pyStrip s) cl := by
      unfold feedback_line_step
      rw [if_neg h1, if_neg h2]
      show (if pyStartsWith (pyStrip s) "CHANGES_LIST:" = true then
          FbStep.next .IN_CHANGES_LIST ct cl
        else
          FbStep.next .IN_CORRECTED_TEXT
            (ct ++ (if ct = "" then "" else " ") ++ pyStrip s) cl)
        = FbStep.next .IN_CORRECTED_TEXT (ct ++ " " ++ pyStrip s) cl
      rw [if_neg (by simp [h3]), if_neg hct]
    rw [List.cons_append, feedback_run_cons _ _ _ _ _ _ _ _ hstep, List.foldl_cons]
    exact ih rest (ct ++ " " ++ pyStrip s) cl
      (ne_empty_append (ct ++ " ") (pyStrip s) (ne_empty_append ct " " hct))
      (fun x hx => hall x (List.mem_cons_of_mem s hx))

theorem feedback_run_changes_lines :
    ∀ (bs rest : List String) (ct : String) (cl : List String),
    (∀ b ∈ bs, pyStartsWith (pyStrip b) "- " = true) →
    feedback_run .IN_CHANGES_LIST ct cl (bs ++ rest)
      = feedback_run .IN_CHANGES_LIST ct
          (cl ++ bs.map (fun b => pyStrip (pyDrop (pyStrip b) 2))) rest := by
  intro bs
  induction bs with
  | nil =>
    intro rest ct cl _
    rw [List.nil_append, List.map_nil, List.append_nil]
  | cons b bs ih =>
    intro rest ct cl hall
    have hb := hall b (List.mem_cons_self b bs)
    have hne1 : pyStrip b ≠ "---START_RESPONSE---" := by
      intro he
      rw [he] at hb
      exact absurd hb (by decide)
    have hne2 : pyStrip b ≠ "---END_RESPONSE---" := by
      intro he
      rw [he] at hb
      exact absurd hb (by decide)
    have hstep : feedback_line_step .IN_CHANGES_LIST ct cl b
        = .next .IN_CHANGES_LIST ct (cl ++ [pyStrip (pyDrop (pyStrip b) 2)]) := by
      unfold feedback_line_step
      rw [if_neg hne1, if_neg hne2]
      show (if (pyStartsWith (pyStrip b) "- " || pyStartsWith (pyStrip b) "* ") = true then
          FbStep.next .IN_CHANGES_LIST ct (cl ++ [pyStrip (pyDrop (pyStrip b) 2)])
        else if numbered_change (pyStrip b) = true then
          FbStep.next .IN_CHANGES_LIST ct (cl ++ [pyStrip (pyDrop (pyStrip b) 3)])
        else if pyStrip b ≠ "" then
          FbStep.next .IN_CHANGES_LIST ct (cl ++ [pyStrip b])
        else FbStep.next .IN_CHANGES_LIST ct cl)
        = FbStep.next .IN_CHANGES_LIST ct (cl ++ [pyStrip (pyDrop (pyStrip b) 2)])
      rw [if_pos (by simp [hb])]
    calc feedback_run .IN_CHANGES_LIST ct cl ((b :: bs) ++ rest)
        = feedback_run .IN_CHANGES_LIST ct
            (cl ++ [pyStrip (pyDrop (pyStrip b) 2)]) (bs ++ rest) := by
          rw [List.cons_append, feedback_run_cons _ _ _ _ _ _ _ _ hstep]
      _ = feedback_run .IN_CHANGES_LIST ct
            ((cl ++ [pyStrip (pyDrop (pyStrip b) 2)])
              ++ bs.map (fun x => pyStrip (pyDrop (pyStrip x) 2))) rest :=
          ih rest ct (cl ++ [pyStrip (pyDrop (pyStrip b) 2)])
            (fun x hx => hall x (List.mem_cons_of_mem b hx))
      _ = feedback_run .IN_CHANGES_LIST ct
            (cl ++ (b :: bs).map (fun x => pyStrip (pyDrop (pyStrip x) 2))) rest := by
          rw [List.append_assoc]
          rfl

/-- Claim C3: on a well-formed reply (start marker, corrected-text line,
optional continuation lines, changes-list line, bullet lines, end marker, in
that order) the state machine extracts the corrected text (continuation
lines joined with single spaces) and exactly the trimmed, prefix-stripped
bullet entries in original order; in particular the concrete example of the
spec parses to corrected text `I am happy.` with changes `[Fixed tense.]`. -/
theorem C3_theorem (hdr : String) (ts bs : List String)
    (hh : pyStartsWith (pyStrip hdr) "CORRECTED_TEXT:" = true)
    (ht0 : pyStrip (pyDrop (pyStrip hdr) 15) ≠ "")
    (hts : ∀ s ∈ ts, pyStrip s ≠ "---START_RESPONSE---" ∧ pyStrip s ≠ "---END_RESPONSE---" ∧
        pyStartsWith (pyStrip s) "CHANGES_LIST:" = false)
    (hbs : ∀ b ∈ bs, pyStartsWith (pyStrip b) "- " = true) :
    feedback_run .INITIAL "" []
        ("---START_RESPONSE---" :: hdr ::
          (ts ++ ("CHANGES_LIST:" :: (bs ++ ["---END_RESPONSE---"]))))
      = (ts.foldl (fun a s => a ++ " " ++ pyStrip s) (pyStrip (pyDrop (pyStrip hdr) 15)),
         bs.map (fun b => pyStrip (pyDrop (pyStrip b) 2)), true)
    ∧ get_feedback_parse "---START_RESPONSE---\nCORRECTED_TEXT: I am happy.\nCHANGES_LIST:\n- Fixed tense.\n---END_RESPONSE---"
      = ⟨"I am happy.", ["Fixed tense."]⟩ := by
  refine ⟨?_, rfl⟩
  have hne1 : pyStrip hdr ≠ "---START_RESPONSE---" := by
    intro he
    rw [he] at hh
    exact absurd hh (by decide)
  have hne2 : pyStrip hdr ≠ "---END_RESPONSE---" := by
    intro he
    rw [he] at hh
    exact absurd hh (by decide)
  have hstep : feedback_line_step .IN_RESPONSE_BLOCK "" [] hdr
      = .next .IN_CORRECTED_TEXT (pyStrip (pyDrop (pyStrip hdr) 15)) [] := by
    unfold feedback_line_step
    rw [if_neg hne1, if_neg hne2]
    show (if pyStartsWith (pyStrip hdr) "CORRECTED_TEXT:" = true then
        FbStep.next .IN_CORRECTED_TEXT (pyStrip (pyDrop (pyStrip hdr) 15)) []
      else if pyStartsWith (pyStrip hdr) "CHANGES_LIST:" = true then
        FbStep.next .IN_CHANGES_LIST "" []
      else FbStep.next .IN_RESPONSE_BLOCK "" [])
      = FbStep.next .IN_CORRECTED_TEXT (pyStrip (pyDrop (pyStrip hdr) 15)) []
    rw [if_pos hh]
  calc feedback_run .INITIAL "" []
        ("---START_RESPONSE---" :: hdr ::
          (ts ++ ("CHANGES_LIST:" :: (bs ++ ["---END_RESPONSE---"]))))
      = feedback_run .IN_RESPONSE_BLOCK "" []
          (hdr :: (ts ++ ("CHANGES_LIST:" :: (bs ++ ["---END_RESPONSE---"])))) := rfl
    _ = feedback_run .IN_CORRECTED_TEXT (pyStrip (pyDrop (pyStrip hdr) 15)) []
          (ts ++ ("CHANGES_LIST:" :: (bs ++ ["---END_RESPONSE---"]))) :=
        feedback_run_cons _ _ _ _ _ _ _ _ hstep
    _ = feedback_run .IN_CORRECTED_TEXT
          (ts.foldl (fun a s => a ++ " " ++ pyStrip s) (pyStrip (pyDrop (pyStrip hdr) 15))) []
          ("CHANGES_LIST:" :: (bs ++ ["---END_RESPONSE---"])) :=
        feedback_run_corrected_lines ts ("CHANGES_LIST:" :: (bs ++ ["---END_RESPONSE---"]))
          (pyStrip (pyDrop (pyStrip hdr) 15)) [] ht0 hts
    _ = feedback_run .IN_CHANGES_LIST
          (ts.foldl (fun a s => a ++ " " ++ pyStrip s) (pyStrip (pyDrop (pyStrip hdr) 15))) []
          (bs ++ ["---END_RESPONSE---"]) := rfl
    _ = feedback_run .IN_CHANGES_LIST
          (ts.foldl (fun a s => a ++ " " ++ pyStrip s) (pyStrip (pyDrop (pyStrip hdr) 15)))
          ([] ++ bs.map (fun b => pyStrip (pyDrop (pyStrip b) 2)))
          ["---END_RESPONSE---"] :=
        feedback_run_changes_lines bs ["---END_RESPONSE---"]
          (ts.foldl (fun a s => a ++ " " ++ pyStrip s) (pyStrip (pyDrop (pyStrip hdr) 15)))
          [] hbs
    _ = (ts.foldl (fun a s => a ++ " " ++ pyStrip s) (pyStrip (pyDrop (pyStrip hdr) 15)),
         bs.map (fun b => pyStrip (pyDrop (pyStrip b) 2)), true) := rfl

/-- Witness for C3 on a two-line corrected text and one bullet. -/
theorem C3_witness :
    feedback_run .INITIAL "" []
        ("---START_RESPONSE---" :: "CORRECTED_TEXT: I am happy" ::
          (["and calm."] ++ ("CHANGES_LIST:" :: (["- Fixed tense."] ++ ["---END_RESPONSE---"]))))
      = ("I am happy and calm.", ["Fixed tense."], true) := by
  have h := (C3_theorem ("CORRECTED_TEXT: I am happy") ["and calm."] ["- Fixed tense."]
      (by decide) (by decide) (by decide) (by decide)).1
  exact h.trans (by decide)

/-- Claim C9: a stripped line of the shape `d. rest` with `d` a digit 1-9
and `rest` not starting with the word prefix flushes the pending record and
opens a new record whose word is the trimmed `rest`; a line numbered `0.`
does not start a record. -/
theorem C9_theorem (d : Char) (rest line : String) (parsed : List VocabEntry)
    (current : Option VocabEntry)
    (hd1 : '1' ≤ d) (hd9 : d ≤ '9')
    (hline : pyStrip line = String.mk (d :: '.' :: ' ' :: rest.data))
    (hw : pyStartsWith rest "Word:" = false) :
    vocab_line_step (parsed, current) line
      = ((match current with
          | some v => parsed ++ [v]
          | none => parsed),
         some { word := pyStrip rest, definition := "", example_sentence := "" })
    ∧ vocab_line_step (parsed, current) "0. Apple" = (parsed, current) := by
  refine ⟨?_, rfl⟩
  cases current with
  | none =>
    unfold vocab_line_step
    rw [hline]
    rw [if_neg (mk_cons_ne_empty d _)]
    rw [starts_with_number_dot_cons]
    rw [if_pos (decide_eq_true ⟨hd1, hd9⟩)]
    rw [split_dot_space_once_cons, mk_data]
    simp [hw]
  | some v =>
    unfold vocab_line_step
    rw [hline]
    rw [if_neg (mk_cons_ne_empty d _)]
    rw [starts_with_number_dot_cons]
    rw [if_pos (decide_eq_true ⟨hd1, hd9⟩)]
    rw [split_dot_space_once_cons, mk_data]
    simp [hw]

/-- Witness for C9 on a concrete numbered line. -/
theorem C9_witness :
    vocab_line_step ([], none) "3. serendipity x"
      = ([], some { word := "serendipity x", definition := "", example_sentence := "" })
    ∧ vocab_line_step ([], none) "0. Apple" = ([], none) := by
  have h := C9_theorem ('3') "serendipity x" "3. serendipity x" [] none
    (by decide) (by decide) (by decide) (by decide)
  exact ⟨h.1.trans (by decide), h.2⟩

end Coach
